import Mathlib

/-!
Shallow embedding of the MonetDB control-plane client module
(monetdb/control.py): the sabdb status-line parser parse_statusline, the
reply-interpretation helper isempty, and the Control command surface over
an abstract transport collaborator.

Modelling conventions: Python strings are lists of characters; Python
exceptions are an explicit error type threaded through Except; the
transport is a record of result oracles, and the per-command connection
lifecycle additionally records an event trace so that connect/cmd/
disconnect ordering is observable.
-/

/-- Python strings are modelled as lists of characters. -/
abbrev PyStr := List Char

/-- Character list of a Lean string literal. -/
def pys (s : String) : PyStr := s.data

/-- The apostrophe character (code point 39), written numerically. -/
def apos : Char := Char.ofNat 39

/-- Python exception classes reachable from this module: OperationalError
and InterfaceError (from monetdb.exceptions), plus the builtin
StopIteration (raised by next on an exhausted iterator) and ValueError
(raised by failing int and float conversions and by tuple unpacking). -/
inductive PyError
  | operationalError (msg : PyStr)
  | interfaceError (msg : PyStr)
  | stopIteration
  | valueError
deriving DecidableEq

/-- Bool test that an Except value is a success. -/
def isOkE {α : Type} : Except PyError α → Bool
  | .ok _ => true
  | .error _ => false

/-- Python s.startswith(pre), with the prefix as first argument. -/
def startswith : PyStr → PyStr → Bool
  | [], _ => true
  | _ :: _, [] => false
  | p :: ps, c :: cs => if p = c then startswith ps cs else false

/-- Python membership test (c in s) for a single character. -/
def pyIn (c : Char) : PyStr → Bool
  | [] => false
  | x :: xs => if x = c then true else pyIn c xs

/-- Python s.split(sep) for a one-character separator: always returns at
least one (possibly empty) segment. -/
def splitOnChar (c : Char) : PyStr → List PyStr
  | [] => [[]]
  | x :: xs =>
    match splitOnChar c xs with
    | [] => [[]]
    | h :: t => if x = c then [] :: h :: t else (x :: h) :: t

/-- Python s.split(sep, maxsplit) for a one-character separator: the
first argument after the separator is the remaining split budget. -/
def splitLimit (c : Char) : Nat → PyStr → List PyStr
  | 0, s => [s]
  | _ + 1, [] => [[]]
  | n + 1, x :: xs =>
    if x = c then [] :: splitLimit c n xs
    else
      match splitLimit c (n + 1) xs with
      | [] => [[x]]
      | h :: t => (x :: h) :: t

/-- Every character of the string is a decimal digit. -/
def allDigits (s : PyStr) : Bool := s.all Char.isDigit

/-- Value of a string of decimal digits (most significant first). -/
def natOfDigits (s : PyStr) : Nat := s.foldl (fun n c => 10 * n + (c.toNat - 48)) 0

/-- Digit-string parse: defined exactly when the string is a nonempty
run of decimal digits. -/
def digitsToNat? (s : PyStr) : Option Nat :=
  if !s.isEmpty && allDigits s then some (natOfDigits s) else none

/-- Python int(str) restricted to an optional sign followed by decimal
digits; the whitespace and underscore forms accepted by Python never
occur in this protocol. Returns none where Python raises ValueError. -/
def pyInt? (s : PyStr) : Option Int :=
  match s with
  | '-' :: r => (digitsToNat? r).map fun n => -(n : Int)
  | '+' :: r => (digitsToNat? r).map fun n => (n : Int)
  | _ => (digitsToNat? s).map fun n => (n : Int)

/-- Unsigned part of a decimal float literal: digits with an optional
decimal point, needing at least one digit overall. The value is taken
exactly, as a rational. -/
def pyFloatBody? (s : PyStr) : Option Rat :=
  match splitOnChar '.' s with
  | [ip] => (digitsToNat? ip).map fun n => (n : Rat)
  | [ip, fp] =>
    if (allDigits ip && allDigits fp) && (!ip.isEmpty || !fp.isEmpty) then
      some ((natOfDigits ip : Rat) + (natOfDigits fp : Rat) / ((10 : Rat) ^ fp.length))
    else none
  | _ => none

/-- Python float(str) restricted to sign, digits and one decimal point,
which covers every float field of the protocol. Returns none where
Python raises ValueError. -/
def pyFloat? (s : PyStr) : Option Rat :=
  match s with
  | '-' :: r => (pyFloatBody? r).map Neg.neg
  | '+' :: r => pyFloatBody? r
  | _ => pyFloatBody? s

/-- datetime.datetime.fromtimestamp is kept abstract: a timestamp is a
wrapper around the integer epoch value it was decoded from. -/
structure PyDateTime where
  ts : Int
deriving DecidableEq

/-- dt.fromtimestamp on an integer epoch value. -/
def dt_fromtimestamp (v : Int) : PyDateTime := ⟨v⟩

/-- The info dictionary built by parse_statusline. Under protocol
version 1 the last_stop key is never inserted, which is modelled by the
outer Option of last_stop (none = key absent, some none = key present
holding Python None). -/
structure DatabaseStatus where
  name : PyStr
  path : PyStr
  locked : Bool
  state : Int
  scenarios : List PyStr
  start_counter : Int
  stop_counter : Int
  crash_counter : Int
  avg_uptime : Int
  max_uptime : Int
  min_uptime : Int
  last_crash : Option PyDateTime
  last_start : PyDateTime
  last_stop : Option (Option PyDateTime)
  crash_avg1 : Bool
  crash_avg10 : Rat
  crash_avg30 : Rat
deriving DecidableEq

/-- A positional consumer of the comma-separated field tokens: the state
is the remaining part of the Python iterator sub_iter. -/
abbrev Step (α : Type) := List PyStr → Except PyError (α × List PyStr)

/-- Python next(sub_iter): yields the next token or raises StopIteration. -/
def nextTok : Step PyStr
  | [] => .error .stopIteration
  | t :: ts => .ok (t, ts)

/-- Sequencing of positional consumers, propagating exceptions. -/
def stepBind {α β : Type} (s : Step α) (f : α → Step β) : Step β := fun l =>
  match s l with
  | .ok (a, l1) => f a l1
  | .error e => .error e

/-- A consumer that reads nothing. -/
def stepPure {α : Type} (a : α) : Step α := fun l => .ok (a, l)

/-- Python int(tok) lifted to the consumer: raises ValueError on a
malformed literal. -/
def intConv (s : PyStr) : Step Int := fun l =>
  match pyInt? s with
  | some v => .ok (v, l)
  | none => .error .valueError

/-- int(next(sub_iter)). -/
def intStep : Step Int := stepBind nextTok intConv

/-- Python float(tok) lifted to the consumer. -/
def floatConv (s : PyStr) : Step Rat := fun l =>
  match pyFloat? s with
  | some v => .ok (v, l)
  | none => .error .valueError

/-- float(next(sub_iter)). -/
def floatStep : Step Rat := stepBind nextTok floatConv

/-- Lines 44 to 72 of control.py: positional consumption of the
comma-separated tokens into the info record, conditional on the protocol
version pv (the historical placeholder is skipped only when pv equals 1,
and the last_stop key exists only when pv is greater than 1). -/
def decodeFields (pv : Int) : Step DatabaseStatus :=
  stepBind nextTok fun nameTok =>
  stepBind nextTok fun pathTok =>
  stepBind nextTok fun lockedTok =>
  stepBind intStep fun stateVal =>
  stepBind nextTok fun scenTok =>
  stepBind (if pv = 1 then stepBind nextTok fun _ => stepPure () else stepPure ()) fun _ =>
  stepBind intStep fun startCt =>
  stepBind intStep fun stopCt =>
  stepBind intStep fun crashCt =>
  stepBind intStep fun avgUp =>
  stepBind intStep fun maxUp =>
  stepBind intStep fun minUp =>
  stepBind intStep fun lastCrash =>
  stepBind intStep fun lastStart =>
  stepBind (if pv > 1 then
              stepBind intStep fun v =>
                stepPure (some (if v > -1 then some (dt_fromtimestamp v) else none))
            else stepPure none) fun lastStop =>
  stepBind nextTok fun avg1Tok =>
  stepBind floatStep fun avg10 =>
  stepBind floatStep fun avg30 =>
  stepPure
    { name := nameTok
      path := pathTok
      locked := lockedTok == pys "1"
      state := stateVal
      scenarios := splitOnChar apos scenTok
      start_counter := startCt
      stop_counter := stopCt
      crash_counter := crashCt
      avg_uptime := avgUp
      max_uptime := maxUp
      min_uptime := minUp
      last_crash := if lastCrash ≥ 0 then some (dt_fromtimestamp lastCrash) else none
      last_start := dt_fromtimestamp lastStart
      last_stop := lastStop
      crash_avg1 := avg1Tok == pys "1"
      crash_avg10 := avg10
      crash_avg30 := avg30 }

/-- Stripping of a single leading continuation marker (lines 29 and 30
of control.py, and the identical two lines inside Control.get). -/
def strip_cont (line : PyStr) : PyStr :=
  if startswith (pys "=") line then line.tail else line

/-- parse_statusline after the continuation marker has been stripped:
tag check, split on the first two colons, version check, then the
positional field decode. The three-way destructuring assignment raises
ValueError when the split does not produce exactly three parts. -/
def parse_stripped (line : PyStr) : Except PyError DatabaseStatus :=
  if startswith (pys "sabdb:") line then
    match splitLimit ':' 2 line with
    | [_code, prot_version, rest] =>
      if prot_version = pys "1" ∨ prot_version = pys "2" then
        match decodeFields ((pyInt? prot_version).getD 0) (splitOnChar ',' rest) with
        | .ok (info, _) => .ok info
        | .error e => .error e
      else .error (.interfaceError (pys "unsupported sabdb protocol"))
    | _ => .error .valueError
  else .error (.operationalError (pys "wrong result recieved"))

/-- parse_statusline from control.py: parses one sabdb status line,
supporting protocol versions 1 and 2. -/
def parse_statusline (line : PyStr) : Except PyError DatabaseStatus :=
  parse_stripped (strip_cont line)

/-- isempty from control.py: an empty reply means success (True), any
other reply raises OperationalError carrying the reply text itself. -/
def isempty (result : PyStr) : Except PyError Bool :=
  if result ≠ [] then .error (.operationalError result) else .ok true

/-- Events observable on the transport collaborator. -/
inductive TEvent
  | connectEv
  | cmdEv (req : PyStr)
  | disconnectEv
deriving DecidableEq

/-- Abstract transport collaborator (the mapi connection): the outcome
of connect, and the reply returned by cmd for each request line. Every
command opens a fresh connection, so one connect outcome and one reply
oracle describe a single call. -/
structure Transport where
  connectResult : Except PyError Unit
  cmdResult : PyStr → Except PyError PyStr

/-- A computation over the transport that records an event trace. -/
def CtrlM (α : Type) := List TEvent → Except PyError α × List TEvent

/-- self.server.connect(...): appends a connect event on success. -/
def connectOp (t : Transport) : CtrlM Unit := fun log =>
  match t.connectResult with
  | .ok _ => (.ok (), log ++ [.connectEv])
  | .error e => (.error e, log)

/-- self.server.cmd(req): records the request and yields the reply
oracle result. -/
def cmdOp (t : Transport) (req : PyStr) : CtrlM PyStr := fun log =>
  (t.cmdResult req, log ++ [.cmdEv req])

/-- self.server.disconnect(): never raises. -/
def disconnectOp : CtrlM Unit := fun log => (.ok (), log ++ [.disconnectEv])

/-- Exception-propagating sequencing of traced computations. -/
def bindM {α β : Type} (x : CtrlM α) (f : α → CtrlM β) : CtrlM β := fun log =>
  match x log with
  | (.ok a, log1) => f a log1
  | (.error e, log1) => (.error e, log1)

/-- Python try body finally cleanup: the cleanup runs whether the body
succeeded or raised, and the body outcome is then reported (a raising
cleanup would replace it, which disconnectOp never does). -/
def tryFinallyPy {α : Type} (body : CtrlM α) (cleanup : CtrlM Unit) : CtrlM α := fun log =>
  match body log with
  | (r, log1) =>
    match cleanup log1 with
    | (.ok _, log2) => (r, log2)
    | (.error e, log2) => (.error e, log2)

namespace Control

/-- Control._send_command: connect, send the single request line built
as database name, space, command text, newline, and always disconnect
(try finally). -/
def send_command (t : Transport) (database_name command : PyStr) : CtrlM PyStr :=
  bindM (connectOp t) fun _ =>
    tryFinallyPy (cmdOp t (database_name ++ ' ' :: (command ++ ['\n']))) disconnectOp

/-- Result of _send_command on a fresh trace, discarding the trace. -/
def send_result (t : Transport) (database_name command : PyStr) : Except PyError PyStr :=
  (send_command t database_name command []).1

/-- Control.create. -/
def create (t : Transport) (database_name : PyStr) : Except PyError Bool :=
  (send_result t database_name (pys "create")).bind isempty

/-- Control.destroy. -/
def destroy (t : Transport) (database_name : PyStr) : Except PyError Bool :=
  (send_result t database_name (pys "destroy")).bind isempty

/-- Control.lock. -/
def lock (t : Transport) (database_name : PyStr) : Except PyError Bool :=
  (send_result t database_name (pys "lock")).bind isempty

/-- Control.release. -/
def release (t : Transport) (database_name : PyStr) : Except PyError Bool :=
  (send_result t database_name (pys "release")).bind isempty

/-- Control.start. -/
def start (t : Transport) (database_name : PyStr) : Except PyError Bool :=
  (send_result t database_name (pys "start")).bind isempty

/-- Control.stop. -/
def stop (t : Transport) (database_name : PyStr) : Except PyError Bool :=
  (send_result t database_name (pys "stop")).bind isempty

/-- Control.kill. -/
def kill (t : Transport) (database_name : PyStr) : Except PyError Bool :=
  (send_result t database_name (pys "kill")).bind isempty

/-- Control.set: sends property=value as the command text. -/
def set (t : Transport) (database_name property_ value : PyStr) : Except PyError Bool :=
  (send_result t database_name (property_ ++ '=' :: value)).bind isempty

/-- Control.inherit: sends property= with an empty right-hand side. -/
def inherit (t : Transport) (database_name property_ : PyStr) : Except PyError Bool :=
  (send_result t database_name (property_ ++ ['='])).bind isempty

/-- Control.rename is sugar for set on the name property. -/
def rename (t : Transport) (old new : PyStr) : Except PyError Bool :=
  set t old (pys "name") new

/-- The status argument: Python defaults database_name to False, and
callers may pass a string. -/
inductive DbArg
  | falseDefault
  | name (s : PyStr)

/-- The list comprehension of the all-databases branch of
Control.status: parse each line left to right, propagating the first
exception. -/
def parseLines : List PyStr → Except PyError (List DatabaseStatus)
  | [] => .ok []
  | l :: ls =>
    match parse_statusline l with
    | .error e => .error e
    | .ok r =>
      match parseLines ls with
      | .error e => .error e
      | .ok rs => .ok (r :: rs)

/-- The else branch of Control.status: query the reserved wildcard
target and decode every newline-separated reply line. -/
def statusAll (t : Transport) : Except PyError (DatabaseStatus ⊕ List DatabaseStatus) :=
  match send_result t (pys "#all") (pys "status") with
  | .ok raw => (parseLines (splitOnChar '\n' raw)).map Sum.inr
  | .error e => .error e

/-- Control.status: branches on the truthiness of database_name (both
the False default and the empty string are falsy), returning a single
decoded record for a truthy name and the all-databases listing
otherwise. -/
def status (t : Transport) (arg : DbArg) : Except PyError (DatabaseStatus ⊕ List DatabaseStatus) :=
  match arg with
  | .name s =>
    if !s.isEmpty then
      match send_result t s (pys "status") with
      | .ok raw => (parse_statusline raw).map Sum.inl
      | .error e => .error e
    else statusAll t
  | .falseDefault => statusAll t

/-- The dictionary of Control.get, modelled as an insertion-ordered
association list: assignment to an existing key updates it in place,
otherwise the pair is appended. -/
abbrev PyDict := List (PyStr × PyStr)

/-- Python dict assignment values[k] = v. -/
def dictInsert (k v : PyStr) : PyDict → PyDict
  | [] => [(k, v)]
  | (k1, v1) :: rest => if k1 = k then (k, v) :: rest else (k1, v1) :: dictInsert k v rest

/-- Python dict lookup. -/
def lookupDict (k : PyStr) : PyDict → Option PyStr
  | [] => none
  | (k1, v1) :: rest => if k1 = k then some v1 else lookupDict k rest

/-- Loop body of Control.get after the continuation marker has been
stripped: skip comment lines, and on a line containing an equals sign
assign split[1] to key split[0], where split is the list of all
equals-separated segments of the line. -/
def get_process_stripped (values : PyDict) (line : PyStr) : PyDict :=
  if !startswith (pys "#") line then
    if pyIn '=' line then
      dictInsert ((splitOnChar '=' line).headD [])
        (((splitOnChar '=' line).drop 1).headD []) values
    else values
  else values

/-- Loop body of Control.get for one reply line: strip a leading
continuation marker, then process the line. -/
def get_process_line (values : PyDict) (line : PyStr) : PyDict :=
  get_process_stripped values (strip_cont line)

/-- Reply-block processing of Control.get: fold the loop body over all
newline-separated lines starting from the empty dictionary. -/
def get_values (properties : PyStr) : PyDict :=
  (splitOnChar '\n' properties).foldl get_process_line []

/-- Control.get: property listing for a database. -/
def get (t : Transport) (database_name : PyStr) : Except PyError PyDict :=
  match send_result t database_name (pys "get") with
  | .ok properties => .ok (get_values properties)
  | .error e => .error e

end Control

/-- The example status line of the specification test catalogue, with
the scenarios field quoted by apostrophes, built without apostrophe
literals. -/
def exLine : PyStr :=
  pys "sabdb:2:mydb,/var/db/mydb,0,1," ++ (apos :: pys "sql") ++
    (apos :: pys ",3,2,0,120,300,10,-1,1700000000,1700005000,1,0.0,0.0")

/-- A positional consumer consumes at least n tokens whenever it
succeeds. -/
def ConsumesAtLeast (n : Nat) {α : Type} (s : Step α) : Prop :=
  ∀ l a l1, s l = .ok (a, l1) → n + l1.length ≤ l.length

/-- The only exceptions a positional consumer can raise are
StopIteration and ValueError. -/
def ErrSet {α : Type} (s : Step α) : Prop :=
  ∀ l e, s l = .error e → e = PyError.stopIteration ∨ e = PyError.valueError

/-! ### Lemmas about the positional consumer -/

theorem consumesAtLeast_mono {m n : Nat} {α : Type} {s : Step α} (h : m ≤ n)
    (hs : ConsumesAtLeast n s) : ConsumesAtLeast m s := by
  intro l a l1 hl
  have := hs l a l1 hl
  omega

theorem consumesAtLeast_stepBind {m n : Nat} {α β : Type} {s : Step α} {f : α → Step β}
    (hs : ConsumesAtLeast m s) (hf : ∀ a, ConsumesAtLeast n (f a)) :
    ConsumesAtLeast (m + n) (stepBind s f) := by
  intro l b l2 hl
  unfold stepBind at hl
  cases hsl : s l with
  | error e => rw [hsl] at hl; exact absurd hl (by simp)
  | ok v =>
    obtain ⟨a, l1⟩ := v
    rw [hsl] at hl
    have h1 := hs l a l1 hsl
    have h2 := hf a l1 b l2 hl
    omega

theorem consumesAtLeast_nextTok : ConsumesAtLeast 1 nextTok := by
  intro l a l1 h
  cases l with
  | nil => exact absurd h (by simp [nextTok])
  | cons x xs =>
    simp only [nextTok, Except.ok.injEq, Prod.mk.injEq] at h
    obtain ⟨-, h2⟩ := h
    subst h2
    simp only [List.length_cons]
    omega

theorem consumesAtLeast_stepPure {α : Type} (a : α) : ConsumesAtLeast 0 (stepPure a) := by
  intro l b l1 h
  simp only [stepPure, Except.ok.injEq, Prod.mk.injEq] at h
  obtain ⟨-, h2⟩ := h
  subst h2
  simp

theorem consumesAtLeast_intConv (s : PyStr) : ConsumesAtLeast 0 (intConv s) := by
  intro l a l1 h
  unfold intConv at h
  cases hv : pyInt? s with
  | none => rw [hv] at h; exact absurd h (by simp)
  | some v =>
    rw [hv] at h
    simp only [Except.ok.injEq, Prod.mk.injEq] at h
    obtain ⟨-, h2⟩ := h
    subst h2
    omega

theorem consumesAtLeast_floatConv (s : PyStr) : ConsumesAtLeast 0 (floatConv s) := by
  intro l a l1 h
  unfold floatConv at h
  cases hv : pyFloat? s with
  | none => rw [hv] at h; exact absurd h (by simp)
  | some v =>
    rw [hv] at h
    simp only [Except.ok.injEq, Prod.mk.injEq] at h
    obtain ⟨-, h2⟩ := h
    subst h2
    omega

theorem consumesAtLeast_intStep : ConsumesAtLeast 1 intStep :=
  consumesAtLeast_stepBind consumesAtLeast_nextTok consumesAtLeast_intConv

theorem consumesAtLeast_floatStep : ConsumesAtLeast 1 floatStep :=
  consumesAtLeast_stepBind consumesAtLeast_nextTok consumesAtLeast_floatConv

theorem errSet_stepBind {α β : Type} {s : Step α} {f : α → Step β}
    (hs : ErrSet s) (hf : ∀ a, ErrSet (f a)) : ErrSet (stepBind s f) := by
  intro l e hl
  unfold stepBind at hl
  cases hsl : s l with
  | error e1 =>
    rw [hsl] at hl
    simp only [Except.error.injEq] at hl
    subst hl
    exact hs l e1 hsl
  | ok v =>
    obtain ⟨a, l1⟩ := v
    rw [hsl] at hl
    exact hf a l1 e hl

theorem errSet_nextTok : ErrSet nextTok := by
  intro l e h
  cases l with
  | nil =>
    simp only [nextTok, Except.error.injEq] at h
    exact Or.inl h.symm
  | cons x xs => exact absurd h (by simp [nextTok])

theorem errSet_stepPure {α : Type} (a : α) : ErrSet (stepPure a) := by
  intro l e h
  exact absurd h (by simp [stepPure])

theorem errSet_intConv (s : PyStr) : ErrSet (intConv s) := by
  intro l e h
  unfold intConv at h
  cases hv : pyInt? s with
  | none =>
    rw [hv] at h
    simp only [Except.error.injEq] at h
    exact Or.inr h.symm
  | some v => rw [hv] at h; exact absurd h (by simp)

theorem errSet_floatConv (s : PyStr) : ErrSet (floatConv s) := by
  intro l e h
  unfold floatConv at h
  cases hv : pyFloat? s with
  | none =>
    rw [hv] at h
    simp only [Except.error.injEq] at h
    exact Or.inr h.symm
  | some v => rw [hv] at h; exact absurd h (by simp)

theorem errSet_intStep : ErrSet intStep :=
  errSet_stepBind errSet_nextTok errSet_intConv

theorem errSet_floatStep : ErrSet floatStep :=
  errSet_stepBind errSet_nextTok errSet_floatConv

theorem errSet_ite {α : Type} {c : Prop} [Decidable c] {s t : Step α}
    (hs : ErrSet s) (ht : ErrSet t) : ErrSet (if c then s else t) := by
  by_cases h : c
  · simpa [h] using hs
  · simpa [h] using ht

theorem decodeFields_one_consumes : ConsumesAtLeast 17 (decodeFields 1) := by
  unfold decodeFields
  rw [if_pos rfl, if_neg (by norm_num : ¬ ((1 : Int) > 1))]
  refine consumesAtLeast_mono ?_
    (consumesAtLeast_stepBind consumesAtLeast_nextTok fun _ =>
      consumesAtLeast_stepBind consumesAtLeast_nextTok fun _ =>
      consumesAtLeast_stepBind consumesAtLeast_nextTok fun _ =>
      consumesAtLeast_stepBind consumesAtLeast_intStep fun _ =>
      consumesAtLeast_stepBind consumesAtLeast_nextTok fun _ =>
      consumesAtLeast_stepBind
        (consumesAtLeast_stepBind consumesAtLeast_nextTok fun _ =>
          consumesAtLeast_stepPure _) fun _ =>
      consumesAtLeast_stepBind consumesAtLeast_intStep fun _ =>
      consumesAtLeast_stepBind consumesAtLeast_intStep fun _ =>
      consumesAtLeast_stepBind consumesAtLeast_intStep fun _ =>
      consumesAtLeast_stepBind consumesAtLeast_intStep fun _ =>
      consumesAtLeast_stepBind consumesAtLeast_intStep fun _ =>
      consumesAtLeast_stepBind consumesAtLeast_intStep fun _ =>
      consumesAtLeast_stepBind consumesAtLeast_intStep fun _ =>
      consumesAtLeast_stepBind consumesAtLeast_intStep fun _ =>
      consumesAtLeast_stepBind (consumesAtLeast_stepPure _) fun _ =>
      consumesAtLeast_stepBind consumesAtLeast_nextTok fun _ =>
      consumesAtLeast_stepBind consumesAtLeast_floatStep fun _ =>
      consumesAtLeast_stepBind consumesAtLeast_floatStep fun _ =>
      consumesAtLeast_stepPure _)
  norm_num

theorem decodeFields_two_consumes : ConsumesAtLeast 17 (decodeFields 2) := by
  unfold decodeFields
  rw [if_neg (by norm_num : ¬ ((2 : Int) = 1)), if_pos (by norm_num : (2 : Int) > 1)]
  refine consumesAtLeast_mono ?_
    (consumesAtLeast_stepBind consumesAtLeast_nextTok fun _ =>
      consumesAtLeast_stepBind consumesAtLeast_nextTok fun _ =>
      consumesAtLeast_stepBind consumesAtLeast_nextTok fun _ =>
      consumesAtLeast_stepBind consumesAtLeast_intStep fun _ =>
      consumesAtLeast_stepBind consumesAtLeast_nextTok fun _ =>
      consumesAtLeast_stepBind (consumesAtLeast_stepPure _) fun _ =>
      consumesAtLeast_stepBind consumesAtLeast_intStep fun _ =>
      consumesAtLeast_stepBind consumesAtLeast_intStep fun _ =>
      consumesAtLeast_stepBind consumesAtLeast_intStep fun _ =>
      consumesAtLeast_stepBind consumesAtLeast_intStep fun _ =>
      consumesAtLeast_stepBind consumesAtLeast_intStep fun _ =>
      consumesAtLeast_stepBind consumesAtLeast_intStep fun _ =>
      consumesAtLeast_stepBind consumesAtLeast_intStep fun _ =>
      consumesAtLeast_stepBind consumesAtLeast_intStep fun _ =>
      consumesAtLeast_stepBind
        (consumesAtLeast_stepBind consumesAtLeast_intStep fun _ =>
          consumesAtLeast_stepPure _) fun _ =>
      consumesAtLeast_stepBind consumesAtLeast_nextTok fun _ =>
      consumesAtLeast_stepBind consumesAtLeast_floatStep fun _ =>
      consumesAtLeast_stepBind consumesAtLeast_floatStep fun _ =>
      consumesAtLeast_stepPure _)
  norm_num

theorem decodeFields_errSet (pv : Int) : ErrSet (decodeFields pv) := by
  unfold decodeFields
  exact errSet_stepBind errSet_nextTok fun _ =>
    errSet_stepBind errSet_nextTok fun _ =>
    errSet_stepBind errSet_nextTok fun _ =>
    errSet_stepBind errSet_intStep fun _ =>
    errSet_stepBind errSet_nextTok fun _ =>
    errSet_stepBind
      (errSet_ite (errSet_stepBind errSet_nextTok fun _ => errSet_stepPure _)
        (errSet_stepPure _)) fun _ =>
    errSet_stepBind errSet_intStep fun _ =>
    errSet_stepBind errSet_intStep fun _ =>
    errSet_stepBind errSet_intStep fun _ =>
    errSet_stepBind errSet_intStep fun _ =>
    errSet_stepBind errSet_intStep fun _ =>
    errSet_stepBind errSet_intStep fun _ =>
    errSet_stepBind errSet_intStep fun _ =>
    errSet_stepBind errSet_intStep fun _ =>
    errSet_stepBind
      (errSet_ite (errSet_stepBind errSet_intStep fun _ => errSet_stepPure _)
        (errSet_stepPure _)) fun _ =>
    errSet_stepBind errSet_nextTok fun _ =>
    errSet_stepBind errSet_floatStep fun _ =>
    errSet_stepBind errSet_floatStep fun _ =>
    errSet_stepPure _

theorem splitLimit_zero (c : Char) (s : PyStr) : splitLimit c 0 s = [s] := by
  cases s <;> rfl

theorem splitOnChar_ne_nil (c : Char) (s : PyStr) : splitOnChar c s ≠ [] := by
  cases s with
  | nil => simp [splitOnChar]
  | cons x xs =>
    simp only [splitOnChar]
    cases h : splitOnChar c xs with
    | nil => simp
    | cons h1 t1 => by_cases hx : x = c <;> simp [hx]

theorem splitOnChar_append {c : Char} {k : PyStr} (h : pyIn c k = false) (rest : PyStr) :
    splitOnChar c (k ++ c :: rest) = k :: splitOnChar c rest := by
  induction k with
  | nil =>
    obtain ⟨h1, t1, hs⟩ := List.exists_cons_of_ne_nil (splitOnChar_ne_nil c rest)
    simp [splitOnChar, hs]
  | cons x xs ih =>
    by_cases hx : x = c
    · simp [pyIn, hx] at h
    · simp only [pyIn, if_neg hx] at h
      simp only [List.cons_append, splitOnChar, List.append_eq, ih h]
      rw [if_neg hx]

theorem splitLimit_one_append {c : Char} {v : PyStr} (h : pyIn c v = false) (rest : PyStr) :
    splitLimit c 1 (v ++ c :: rest) = [v, rest] := by
  induction v with
  | nil => simp [splitLimit, splitLimit_zero]
  | cons x xs ih =>
    by_cases hx : x = c
    · simp [pyIn, hx] at h
    · simp only [pyIn, if_neg hx] at h
      simp only [List.cons_append, splitLimit, List.append_eq, Nat.zero_add, ih h]
      rw [if_neg hx]

theorem startswith_append (p s : PyStr) : startswith p (p ++ s) = true := by
  induction p with
  | nil => rfl
  | cons x xs ih => simp [startswith, ih]

theorem parse_v1_eq (rest : PyStr) :
    parse_statusline (pys "sabdb:1:" ++ rest) =
      (match decodeFields 1 (splitOnChar ',' rest) with
       | .ok (info, _) => .ok info
       | .error e => .error e) := by
  cases rest <;> rfl

theorem parse_v2_eq (rest : PyStr) :
    parse_statusline (pys "sabdb:2:" ++ rest) =
      (match decodeFields 2 (splitOnChar ',' rest) with
       | .ok (info, _) => .ok info
       | .error e => .error e) := by
  cases rest <;> rfl

theorem isempty_spec (r : PyStr) :
    isempty r = if r = [] then .ok true else .error (.operationalError r) := by
  by_cases h : r = [] <;> simp [isempty, h]

theorem send_command_trace (t : Transport) (db c : PyStr) (log : List TEvent)
    (hc : t.connectResult = .ok ()) :
    Control.send_command t db c log =
      (t.cmdResult (db ++ ' ' :: (c ++ ['\n'])),
       log ++ [.connectEv, .cmdEv (db ++ ' ' :: (c ++ ['\n'])), .disconnectEv]) := by
  unfold Control.send_command bindM connectOp
  rw [hc]
  unfold tryFinallyPy cmdOp disconnectOp
  simp

theorem send_result_eq (t : Transport) (db c : PyStr) (hc : t.connectResult = .ok ()) :
    Control.send_result t db c = t.cmdResult (db ++ ' ' :: (c ++ ['\n'])) := by
  unfold Control.send_result
  rw [send_command_trace t db c [] hc]

theorem parseLines_length (ls : List PyStr) (rs : List DatabaseStatus)
    (h : Control.parseLines ls = .ok rs) : rs.length = ls.length := by
  induction ls generalizing rs with
  | nil =>
    simp only [Control.parseLines, Except.ok.injEq] at h
    subst h
    rfl
  | cons l ls ih =>
    simp only [Control.parseLines] at h
    cases h1 : parse_statusline l with
    | error e => rw [h1] at h; exact absurd h (by simp)
    | ok r =>
      rw [h1] at h
      cases h2 : Control.parseLines ls with
      | error e => rw [h2] at h; exact absurd h (by simp)
      | ok rs1 =>
        rw [h2] at h
        simp only [Except.ok.injEq] at h
        subst h
        simp [ih rs1 h2]

theorem lookupDict_dictInsert (k v : PyStr) (d : Control.PyDict) :
    Control.lookupDict k (Control.dictInsert k v d) = some v := by
  induction d with
  | nil => simp [Control.dictInsert, Control.lookupDict]
  | cons p rest ih =>
    obtain ⟨k1, v1⟩ := p
    by_cases h : k1 = k
    · simp [Control.dictInsert, Control.lookupDict, h]
    · simp [Control.dictInsert, Control.lookupDict, h, ih]

theorem pyIn_self_append (c : Char) (xs rest : PyStr) : pyIn c (xs ++ c :: rest) = true := by
  induction xs with
  | nil => simp [pyIn]
  | cons x l ih => by_cases hx : x = c <;> simp [pyIn, hx, ih]

/-- C1: for every mutating command (create, destroy, lock, release,
start, stop, kill, set, inherit, rename), an empty transport reply
yields success (True, no exception) and any non-empty reply raises
OperationalError carrying exactly the reply text. -/
theorem mutating_commands_reply_dispatch (t : Transport) (db prop value old new r : PyStr)
    (hc : t.connectResult = .ok ())
    (hr : ∀ req, t.cmdResult req = .ok r) :
    (Control.create t db = if r = [] then .ok true else .error (.operationalError r)) ∧
    (Control.destroy t db = if r = [] then .ok true else .error (.operationalError r)) ∧
    (Control.lock t db = if r = [] then .ok true else .error (.operationalError r)) ∧
    (Control.release t db = if r = [] then .ok true else .error (.operationalError r)) ∧
    (Control.start t db = if r = [] then .ok true else .error (.operationalError r)) ∧
    (Control.stop t db = if r = [] then .ok true else .error (.operationalError r)) ∧
    (Control.kill t db = if r = [] then .ok true else .error (.operationalError r)) ∧
    (Control.set t db prop value = if r = [] then .ok true else .error (.operationalError r)) ∧
    (Control.inherit t db prop = if r = [] then .ok true else .error (.operationalError r)) ∧
    (Control.rename t old new = if r = [] then .ok true else .error (.operationalError r)) := by
  have hs : ∀ dbx cx, Control.send_result t dbx cx = .ok r := fun dbx cx => by
    rw [send_result_eq t dbx cx hc, hr]
  refine ⟨?_, ?_, ?_, ?_, ?_, ?_, ?_, ?_, ?_, ?_⟩ <;>
    simp [Control.create, Control.destroy, Control.lock, Control.release, Control.start,
      Control.stop, Control.kill, Control.set, Control.inherit, Control.rename, hs,
      Except.bind, isempty_spec]

theorem mutating_commands_reply_dispatch_witness :
    Control.create ⟨.ok (), fun _ => .ok (pys "boom")⟩ (pys "db") =
      .error (.operationalError (pys "boom")) := by
  have h := mutating_commands_reply_dispatch ⟨.ok (), fun _ => .ok (pys "boom")⟩
    (pys "db") (pys "p") (pys "v") (pys "o") (pys "n") (pys "boom") rfl (fun _ => rfl)
  rw [h.1]
  rfl

/-- C2 counterexample: on the specification example line the decoded
scenarios component is the full apostrophe-split list, which contains
the empty string, so viewed as a set it is not the singleton set holding
only the sql scenario name. -/
theorem status_scenarios_not_a_singleton_set :
    (parse_statusline exLine).map (fun i => i.scenarios) = .ok [[], pys "sql", []] ∧
      (parse_statusline exLine).map (fun i => i.scenarios.contains ([] : PyStr)) = .ok true :=
  ⟨rfl, rfl⟩

/-- C2 amended: parsing the example line succeeds with locked false,
state 1, start counter 3, absent last crash, last start decoded from
1700000000, last stop decoded from 1700005000 and crash average flag
true, but the scenarios component is the list of apostrophe-split
segments including the empty segments around the quotes, rather than a
set holding only the sql name. -/
theorem status_example_line_decoding :
    (parse_statusline exLine).map (fun i => i.scenarios) = .ok [[], pys "sql", []] ∧
    (parse_statusline exLine).map (fun i => i.locked) = .ok false ∧
    (parse_statusline exLine).map (fun i => i.state) = .ok 1 ∧
    (parse_statusline exLine).map (fun i => i.start_counter) = .ok 3 ∧
    (parse_statusline exLine).map (fun i => i.last_crash) = .ok none ∧
    (parse_statusline exLine).map (fun i => i.last_start) = .ok (dt_fromtimestamp 1700000000) ∧
    (parse_statusline exLine).map (fun i => i.last_stop) =
      .ok (some (some (dt_fromtimestamp 1700005000))) ∧
    (parse_statusline exLine).map (fun i => i.crash_avg1) = .ok true :=
  ⟨rfl, rfl, rfl, rfl, rfl, rfl, rfl, rfl⟩

/-- C9: once the per-command connection has been opened, the disconnect
event is recorded on every exit path of _send_command, last in the
trace, whether the cmd reply oracle succeeds or raises; the call then
reports exactly the cmd outcome. -/
theorem send_command_disconnects_on_every_path (t : Transport) (db c : PyStr)
    (log : List TEvent) (hc : t.connectResult = .ok ()) :
    (Control.send_command t db c log).2 =
        log ++ [.connectEv, .cmdEv (db ++ ' ' :: (c ++ ['\n'])), .disconnectEv] ∧
      (Control.send_command t db c log).1 = t.cmdResult (db ++ ' ' :: (c ++ ['\n'])) := by
  rw [send_command_trace t db c log hc]
  exact ⟨rfl, rfl⟩

theorem send_command_disconnects_on_every_path_witness :
    (Control.send_command ⟨.ok (), fun _ => .error .valueError⟩ (pys "db") (pys "stop") []).2 =
      [.connectEv, .cmdEv (pys "db stop\n"), .disconnectEv] := by
  have h := send_command_disconnects_on_every_path ⟨.ok (), fun _ => .error .valueError⟩
    (pys "db") (pys "stop") [] rfl
  rw [h.1]
  rfl

/-- C5 counterexample: a reply with the wrong leading tag raises
OperationalError, the very same error kind (same constructor, and here
even the same error value) that isempty raises for a server-reported
application-level failure, so the two are not distinguishable by error
kind, only by message text. -/
theorem wrong_tag_error_same_kind_as_operational :
    parse_statusline (pys "bogus") =
        .error (.operationalError (pys "wrong result recieved")) ∧
      isempty (pys "wrong result recieved") =
        .error (.operationalError (pys "wrong result recieved")) :=
  ⟨rfl, rfl⟩

/-- C5 amended: every line that after optional continuation-marker
stripping does not begin with the sabdb tag fails, but with an
OperationalError carrying the fixed message, the same error kind used
for server-reported operational failures (distinguishable only by
message text, not by kind). -/
theorem wrong_tag_raises_operational_message (line : PyStr)
    (h : startswith (pys "sabdb:") (strip_cont line) = false) :
    parse_statusline line = .error (.operationalError (pys "wrong result recieved")) := by
  unfold parse_statusline parse_stripped
  rw [h]
  simp

theorem wrong_tag_raises_operational_message_witness :
    parse_statusline (pys "no such database") =
      .error (.operationalError (pys "wrong result recieved")) :=
  wrong_tag_raises_operational_message (pys "no such database") rfl

/-- C8 counterexample: for the body consisting of a continuation marker
followed by a valid line, parsing the body alone succeeds while parsing
the marker-prefixed line fails, because only a single leading marker is
stripped; so prefixing a marker can change the decoded result. -/
theorem continuation_marker_double_strip_differs :
    parse_statusline ('=' :: ('=' :: exLine)) =
        .error (.operationalError (pys "wrong result recieved")) ∧
      isOkE (parse_statusline ('=' :: exLine)) = true :=
  ⟨rfl, rfl⟩

/-- C8 amended: for every body that does not itself begin with the
continuation marker, prefixing a single marker never changes the
decoded result; when the body already starts with a marker the two
parses can differ, since only one marker is stripped. -/
theorem continuation_marker_stripping_invariant (b : PyStr)
    (h : startswith (pys "=") b = false) :
    parse_statusline ('=' :: b) = parse_statusline b := by
  unfold parse_statusline strip_cont
  have h1 : startswith (pys "=") ('=' :: b) = true := rfl
  rw [h1, h]
  simp

theorem continuation_marker_stripping_invariant_witness :
    parse_statusline ('=' :: exLine) = parse_statusline exLine :=
  continuation_marker_stripping_invariant exLine rfl

/-- C10: Control.status branches on truthiness of the database-name
argument: the False default and the empty string both take the
all-databases branch, sending the request to the reserved wildcard
target and decoding one record per newline-separated reply line, while
a non-empty name takes the single-record branch sending that name. -/
theorem status_truthiness_dispatch (t : Transport) (s raw : PyStr)
    (hs : s ≠ [])
    (hraw : Control.send_result t (pys "#all") (pys "status") = .ok raw) :
    Control.status t .falseDefault = Control.status t (.name []) ∧
    Control.status t (.name []) = (Control.parseLines (splitOnChar '\n' raw)).map Sum.inr ∧
    Control.status t (.name s) =
      (match Control.send_result t s (pys "status") with
       | .ok r1 => (parse_statusline r1).map Sum.inl
       | .error e => .error e) ∧
    (∀ l, Control.parseLines (splitOnChar '\n' raw) = .ok l →
       Control.status t (.name []) = .ok (.inr l) ∧
         l.length = (splitOnChar '\n' raw).length) := by
  have hall : Control.statusAll t = (Control.parseLines (splitOnChar '\n' raw)).map Sum.inr := by
    unfold Control.statusAll
    rw [hraw]
  have hempty : Control.status t (.name []) = Control.statusAll t := rfl
  refine ⟨rfl, ?_, ?_, ?_⟩
  · rw [hempty, hall]
  · have hne : s.isEmpty = false := by
      cases s with
      | nil => exact absurd rfl hs
      | cons x xs => rfl
    show (if (!s.isEmpty) = true then
        match Control.send_result t s (pys "status") with
        | .ok r1 => (parse_statusline r1).map Sum.inl
        | .error e => .error e
      else Control.statusAll t) = _
    rw [hne]
    rfl
  · intro l hl
    refine ⟨?_, parseLines_length _ _ hl⟩
    rw [hempty, hall, hl]
    rfl

theorem status_truthiness_dispatch_witness :
    Control.status ⟨.ok (), fun _ => .ok exLine⟩ (.name []) =
      (Control.parseLines (splitOnChar '\n' exLine)).map Sum.inr :=
  (status_truthiness_dispatch ⟨.ok (), fun _ => .ok exLine⟩ (pys "x") exLine
    (by decide) rfl).2.1

/-- C4 counterexample: a status line with the correct tag, an accepted
version and fewer comma-separated tokens than the field order requires
can fail with ValueError (a numeric-conversion failure hit before the
tokens run out), which is not the malformed-line StopIteration kind. -/
theorem short_line_fails_with_value_error :
    parse_statusline (pys "sabdb:2:mydb,/p,0,xyz") = .error PyError.valueError ∧
      (splitOnChar ',' (pys "mydb,/p,0,xyz")).length < 17 ∧
      PyError.valueError ≠ PyError.stopIteration :=
  ⟨rfl, by decide, by decide⟩

/-- C4 amended: on a line with the correct tag, an accepted version and
fewer tokens than the fixed field order requires, the parser always
fails and never returns a partially populated record; the failure is
the StopIteration token-exhaustion error (malformed line) or a
ValueError from a numeric conversion hit earlier. -/
theorem short_line_always_fails (rest : PyStr)
    (h : (splitOnChar ',' rest).length < 17) :
    (∃ e, parse_statusline (pys "sabdb:1:" ++ rest) = .error e ∧
       (e = PyError.stopIteration ∨ e = PyError.valueError)) ∧
    (∃ e, parse_statusline (pys "sabdb:2:" ++ rest) = .error e ∧
       (e = PyError.stopIteration ∨ e = PyError.valueError)) := by
  constructor
  · rw [parse_v1_eq rest]
    cases hd : decodeFields 1 (splitOnChar ',' rest) with
    | ok v =>
      obtain ⟨info, rem⟩ := v
      have := decodeFields_one_consumes (splitOnChar ',' rest) info rem hd
      omega
    | error e =>
      exact ⟨e, rfl, decodeFields_errSet 1 _ e hd⟩
  · rw [parse_v2_eq rest]
    cases hd : decodeFields 2 (splitOnChar ',' rest) with
    | ok v =>
      obtain ⟨info, rem⟩ := v
      have := decodeFields_two_consumes (splitOnChar ',' rest) info rem hd
      omega
    | error e =>
      exact ⟨e, rfl, decodeFields_errSet 2 _ e hd⟩

theorem short_line_always_fails_witness :
    (∃ e, parse_statusline (pys "sabdb:1:" ++ pys "mydb") = .error e ∧
       (e = PyError.stopIteration ∨ e = PyError.valueError)) ∧
    (∃ e, parse_statusline (pys "sabdb:2:" ++ pys "mydb") = .error e ∧
       (e = PyError.stopIteration ∨ e = PyError.valueError)) :=
  short_line_always_fails (pys "mydb") (by decide)

/-- C6 counterexample: the version token 02 denotes the integer 2, yet
the parser rejects it with the unsupported-version InterfaceError,
because the acceptance test compares the token string against the
literal strings for one and two instead of its integer value. -/
theorem version_token_zero_two_rejected :
    pyInt? (pys "02") = some 2 ∧
      parse_statusline (pys "sabdb:02:a,b,0,1,s,3,2,0,120,300,10,-1,0,0,1,0.0,0.0") =
        .error (.interfaceError (pys "unsupported sabdb protocol")) :=
  ⟨rfl, rfl⟩

/-- C6 amended: the version token is accepted exactly when it is
literally the string 1 or the string 2; every other token, even one
denoting the integer 1 or 2 such as 02, fails with the
unsupported-version InterfaceError and is never silently decoded, and
under an accepted version the parser never raises that error. -/
theorem version_accepted_iff_literal_token (ver rest rest1 rest2 : PyStr)
    (hcolon : pyIn ':' ver = false)
    (h1 : ver ≠ pys "1") (h2 : ver ≠ pys "2") :
    parse_statusline (pys "sabdb:" ++ (ver ++ ':' :: rest)) =
        .error (.interfaceError (pys "unsupported sabdb protocol")) ∧
      (∀ e, parse_statusline (pys "sabdb:1:" ++ rest1) = .error e →
        e = PyError.stopIteration ∨ e = PyError.valueError) ∧
      (∀ e, parse_statusline (pys "sabdb:2:" ++ rest2) = .error e →
        e = PyError.stopIteration ∨ e = PyError.valueError) := by
  refine ⟨?_, ?_, ?_⟩
  · have hstrip : strip_cont (pys "sabdb:" ++ (ver ++ ':' :: rest)) =
        pys "sabdb:" ++ (ver ++ ':' :: rest) := rfl
    have htag : startswith (pys "sabdb:") (pys "sabdb:" ++ (ver ++ ':' :: rest)) = true :=
      startswith_append _ _
    have hsplit : splitLimit ':' 2 (pys "sabdb:" ++ (ver ++ ':' :: rest)) =
        [pys "sabdb", ver, rest] := by
      have h5 := splitLimit_one_append hcolon rest
      show splitLimit ':' 2 ('s' :: 'a' :: 'b' :: 'd' :: 'b' :: ':' :: (ver ++ ':' :: rest)) = _
      simp [splitLimit, h5]
      rfl
    unfold parse_statusline
    rw [hstrip]
    unfold parse_stripped
    rw [htag, hsplit]
    simp only [if_true]
    rw [if_neg (not_or.mpr ⟨h1, h2⟩)]
  · intro e he
    rw [parse_v1_eq rest1] at he
    cases hd : decodeFields 1 (splitOnChar ',' rest1) with
    | error e1 =>
      rw [hd] at he
      simp only [Except.error.injEq] at he
      subst he
      exact decodeFields_errSet 1 _ e1 hd
    | ok v =>
      obtain ⟨info, rem⟩ := v
      rw [hd] at he
      exact absurd he (by simp)
  · intro e he
    rw [parse_v2_eq rest2] at he
    cases hd : decodeFields 2 (splitOnChar ',' rest2) with
    | error e1 =>
      rw [hd] at he
      simp only [Except.error.injEq] at he
      subst he
      exact decodeFields_errSet 2 _ e1 hd
    | ok v =>
      obtain ⟨info, rem⟩ := v
      rw [hd] at he
      exact absurd he (by simp)

theorem version_accepted_iff_literal_token_witness :
    parse_statusline (pys "sabdb:" ++ (pys "02" ++ ':' :: pys "a")) =
      .error (.interfaceError (pys "unsupported sabdb protocol")) :=
  (version_accepted_iff_literal_token (pys "02") (pys "a") (pys "x") (pys "y") rfl
    (by decide) (by decide)).1

/-- C3 counterexample: for the reply line a=b=c the listing operation
stores the value b, the segment between the first and second equals
sign, not the whole remainder b=c that splitting only on the first
equals sign would keep. -/
theorem get_value_truncated_at_second_equals :
    Control.get ⟨.ok (), fun _ => .ok (pys "a=b=c")⟩ (pys "db") =
        .ok [(pys "a", pys "b")] ∧
      (pys "b" : PyStr) ≠ pys "b=c" :=
  ⟨rfl, by decide⟩

/-- C3 amended: comment lines (also after continuation-marker
stripping) contribute no entry, the concrete example reply yields
exactly the claimed mapping, duplicate keys keep the last occurrence,
but a line is split on every equals sign with the value taken as the
segment between the first and the second one, so a value containing an
equals sign is truncated there rather than kept whole. -/
theorem get_mapping_amended (values : Control.PyDict) (cm k v w : PyStr)
    (d : Control.PyDict) (hk : k ≠ []) (hkeq : pyIn '=' k = false)
    (hkhash : startswith (pys "#") k = false) (hveq : pyIn '=' v = false) :
    Control.get_values (pys "name=foo\n#comment\nport=5000\n") =
        [(pys "name", pys "foo"), (pys "port", pys "5000")] ∧
      Control.get_process_line values ('#' :: cm) = values ∧
      Control.get_process_line values ('=' :: '#' :: cm) = values ∧
      Control.get_process_line values (k ++ '=' :: (v ++ '=' :: w)) =
        Control.dictInsert k v values ∧
      Control.lookupDict k (Control.dictInsert k v d) = some v := by
  refine ⟨rfl, rfl, rfl, ?_, lookupDict_dictInsert k v d⟩
  cases k with
  | nil => exact absurd rfl hk
  | cons c k1 =>
    have hc : ¬ c = '=' := by
      intro hcc
      rw [pyIn, hcc] at hkeq
      simp at hkeq
    have hchash : ¬ c = '#' := by
      intro hcc
      rw [hcc] at hkhash
      simp [startswith] at hkhash
    have hstrip : strip_cont ((c :: k1) ++ '=' :: (v ++ '=' :: w)) =
        (c :: k1) ++ '=' :: (v ++ '=' :: w) := by
      unfold strip_cont
      rw [show startswith (pys "=") ((c :: k1) ++ '=' :: (v ++ '=' :: w)) = false by
        simp only [List.cons_append, startswith]
        rw [if_neg (fun hx => hc hx.symm)]]
      rfl
    have hhash : startswith (pys "#") ((c :: k1) ++ '=' :: (v ++ '=' :: w)) = false := by
      simp only [List.cons_append, startswith]
      rw [if_neg (fun hx => hchash hx.symm)]
    have hin : pyIn '=' ((c :: k1) ++ '=' :: (v ++ '=' :: w)) = true :=
      pyIn_self_append '=' (c :: k1) (v ++ '=' :: w)
    have hsplit : splitOnChar '=' ((c :: k1) ++ '=' :: (v ++ '=' :: w)) =
        (c :: k1) :: v :: splitOnChar '=' w := by
      rw [splitOnChar_append hkeq, splitOnChar_append hveq]
    unfold Control.get_process_line
    rw [hstrip]
    unfold Control.get_process_stripped
    rw [hhash, hin, hsplit]
    rfl

theorem get_mapping_amended_witness :
    Control.get_process_line [] (pys "port" ++ '=' :: (pys "5000" ++ '=' :: pys "x")) =
      Control.dictInsert (pys "port") (pys "5000") [] :=
  (get_mapping_amended [] (pys "c") (pys "port") (pys "5000") (pys "x") []
    (by decide) rfl rfl rfl).2.2.2.1

/-- C7: for every integer-encoded timestamp value, the last_crash field
and, under version 2, the last_stop field decode to absent exactly when
the encoded value is negative, and to a timestamp otherwise; in
particular the encoded value 0 decodes to a timestamp. Under version 1
the last_stop key is not produced at all. -/
theorem timestamp_sentinel_decoding
    (t1 t2 t3 t4 t5 t6 t7 t8 t9 t10 t11 t12 t13 t14 t15 t16 t17 s0 : PyStr)
    (v4 v6 v7 v8 v9 v10 v11 vc vls vt : Int) (q1 q2 : Rat)
    (h4 : pyInt? t4 = some v4) (h6 : pyInt? t6 = some v6) (h7 : pyInt? t7 = some v7)
    (h8 : pyInt? t8 = some v8) (h9 : pyInt? t9 = some v9) (h10 : pyInt? t10 = some v10)
    (h11 : pyInt? t11 = some v11) (h12 : pyInt? t12 = some vc) (h13 : pyInt? t13 = some vls)
    (h14 : pyInt? t14 = some vt) (h16 : pyFloat? t16 = some q1) (h17 : pyFloat? t17 = some q2) :
    (∃ r0, decodeFields 2
        [t1, t2, t3, t4, t5, t6, t7, t8, t9, t10, t11, t12, t13, t14, t15, t16, t17] =
          .ok (r0, []) ∧
      (r0.last_crash = none ↔ vc < 0) ∧
      (0 ≤ vc → r0.last_crash = some (dt_fromtimestamp vc)) ∧
      (r0.last_stop = some none ↔ vt < 0) ∧
      (0 ≤ vt → r0.last_stop = some (some (dt_fromtimestamp vt)))) ∧
    (∃ r0, decodeFields 1
        [t1, t2, t3, t4, t5, s0, t6, t7, t8, t9, t10, t11, t12, t13, t15, t16, t17] =
          .ok (r0, []) ∧
      (r0.last_crash = none ↔ vc < 0) ∧
      (0 ≤ vc → r0.last_crash = some (dt_fromtimestamp vc)) ∧
      r0.last_stop = none) := by
  constructor
  · use { name := t1, path := t2, locked := t3 == pys "1", state := v4,
            scenarios := splitOnChar apos t5, start_counter := v6, stop_counter := v7,
            crash_counter := v8, avg_uptime := v9, max_uptime := v10, min_uptime := v11,
            last_crash := if vc ≥ 0 then some (dt_fromtimestamp vc) else none,
            last_start := dt_fromtimestamp vls,
            last_stop := some (if vt > -1 then some (dt_fromtimestamp vt) else none),
            crash_avg1 := t15 == pys "1", crash_avg10 := q1, crash_avg30 := q2 }
    refine ⟨?_, ?_, ?_, ?_, ?_⟩
    · simp only [decodeFields, stepBind, stepPure, nextTok, intStep, intConv, floatStep,
        floatConv, h4, h6, h7, h8, h9, h10, h11, h12, h13, h14, h16, h17,
        show ¬ ((2 : Int) = 1) by norm_num, if_false, show ((2 : Int) > 1) by norm_num, if_true]
    · by_cases hv : vc ≥ 0
      · simp only [if_pos hv]
        simp
        omega
      · simp only [if_neg hv]
        simp
        omega
    · intro hv
      simp only [if_pos hv]
    · by_cases hv : vt > -1
      · simp only [if_pos hv]
        simp
        omega
      · simp only [if_neg hv]
        simp
        omega
    · intro hv
      simp only [if_pos (show vt > -1 by omega)]
  · use { name := t1, path := t2, locked := t3 == pys "1", state := v4,
            scenarios := splitOnChar apos t5, start_counter := v6, stop_counter := v7,
            crash_counter := v8, avg_uptime := v9, max_uptime := v10, min_uptime := v11,
            last_crash := if vc ≥ 0 then some (dt_fromtimestamp vc) else none,
            last_start := dt_fromtimestamp vls, last_stop := none,
            crash_avg1 := t15 == pys "1", crash_avg10 := q1, crash_avg30 := q2 }
    refine ⟨?_, ?_, ?_, rfl⟩
    · simp only [decodeFields, stepBind, stepPure, nextTok, intStep, intConv, floatStep,
        floatConv, h4, h6, h7, h8, h9, h10, h11, h12, h13, h16, h17, if_true,
        if_pos (show (1 : Int) = 1 by norm_num), show ¬ ((1 : Int) > 1) by norm_num, if_false]
    · by_cases hv : vc ≥ 0
      · simp only [if_pos hv]
        simp
        omega
      · simp only [if_neg hv]
        simp
        omega
    · intro hv
      simp only [if_pos hv]

theorem timestamp_sentinel_decoding_witness :
    ∃ r0, decodeFields 2
        [pys "n", pys "p", pys "0", pys "1", pys "s", pys "3", pys "2", pys "0",
          pys "120", pys "300", pys "10", pys "-1", pys "0", pys "0", pys "1",
          pys "0", pys "0"] = .ok (r0, []) ∧
      (r0.last_crash = none ↔ (-1 : Int) < 0) ∧
      (0 ≤ (-1 : Int) → r0.last_crash = some (dt_fromtimestamp (-1))) ∧
      (r0.last_stop = some none ↔ (0 : Int) < 0) ∧
      (0 ≤ (0 : Int) → r0.last_stop = some (some (dt_fromtimestamp 0))) :=
  (timestamp_sentinel_decoding (pys "n") (pys "p") (pys "0") (pys "1") (pys "s")
    (pys "3") (pys "2") (pys "0") (pys "120") (pys "300") (pys "10") (pys "-1")
    (pys "0") (pys "0") (pys "1") (pys "0") (pys "0") (pys "z")
    1 3 2 0 120 300 10 (-1) 0 0 0 0
    rfl rfl rfl rfl rfl rfl rfl rfl rfl rfl (by decide) (by decide)).1
